import Mathlib

/-!
Verification of the MS365 MCP server's token acquisition and caching core.

The development shallowly embeds the three Python modules:
* `auth.py` — MSAL-based token acquisition (`get_access_token`, `_load_cache`,
  `_save_cache`, `SCOPES`);
* `server.py` — the process-wide token slot (`_get_token`), the startup
  configuration check, the error formatter (`_handle_error`) and the
  `ms365_list_emails` tool's validation prefix;
* `graph_client.py` — the response normalization inside `graph_request`.

Effectful calls into the MSAL library are modelled by a `Provider` oracle
recording what each library call would return and how it would mutate the
token cache; the embedding threads the on-disk cache blob (`Option String`,
`none` = file absent) explicitly and records an `AuthEvent` trace of the
provider calls and file writes the Python code performs.
-/

namespace MS365

/-- Python truthiness of an `Optional[str]`: `None` and `""` are falsy. -/
def pyFalsy : Option String → Bool
  | none => true
  | some s => s == ""

/-- `SCOPES` from auth.py, lines 13–19. -/
def SCOPES : List String :=
  ["Mail.Read", "Mail.ReadWrite", "Mail.Send", "Calendars.Read", "User.Read"]

/-- An MSAL acquisition result dict; each `Option` field models the presence
of the corresponding key (`access_token`, `error_description`, `error`). -/
structure TokenResult where
  access_token : Option String
  error_description : Option String
  error : Option String
  deriving Repr, DecidableEq

/-- `result.get("error_description", result.get("error", "Unknown error"))`
from auth.py, line 67. -/
def errorOf (r : TokenResult) : String :=
  match r.error_description with
  | some d => d
  | none =>
    match r.error with
    | some e => e
    | none => "Unknown error"

/-- An `msal.SerializableTokenCache`: the blob it would serialize to, and its
`has_state_changed` flag. -/
structure Cache where
  serialized : String
  has_state_changed : Bool
  deriving Repr, DecidableEq

/-- `_load_cache` from auth.py, lines 22–27: deserialize the blob when the
file exists, otherwise return a fresh empty cache.  Total: a missing file
(`none`) is not an error. -/
def loadCache : Option String → Cache
  | some blob => { serialized := blob, has_state_changed := false }
  | none => { serialized := "", has_state_changed := false }

/-- Observable actions of `get_access_token`: a silent acquisition attempt,
an interactive (browser) acquisition, and a write of the cache file. -/
inductive AuthEvent where
  | silentCall (scopes : List String) (account : String)
  | interactiveCall (scopes : List String) (prompt : String)
  | fileWrite (blob : String)
  deriving Repr, DecidableEq

/-- `_save_cache` from auth.py, lines 30–33: write the serialized blob only
when `has_state_changed`; returns the resulting disk state and the write
events performed. -/
def saveCache (c : Cache) (disk : Option String) : Option String × List AuthEvent :=
  if c.has_state_changed then (some c.serialized, [AuthEvent.fileWrite c.serialized])
  else (disk, [])

/-- Oracle for the MSAL `PublicClientApplication`: what `get_accounts`
returns for the loaded cache, what `acquire_token_silent` returns
(`none` = Python `None`) and the cache state after it, and likewise for
`acquire_token_interactive`. -/
structure Provider where
  accounts : List String
  silentResult : Option TokenResult
  cacheAfterSilent : Cache
  interactiveResult : TokenResult
  cacheAfterInteractive : Cache
  deriving Repr, DecidableEq

/-- The guard of auth.py line 53–55: accounts exist and the silent result is
a dict containing `access_token`. -/
def silentSucceeds (p : Provider) : Bool :=
  !p.accounts.isEmpty &&
    (match p.silentResult with
     | some r => r.access_token.isSome
     | none => false)

/-- The interactive tail of `get_access_token` (auth.py lines 60–71): call
`acquire_token_interactive` with `SCOPES` and `prompt="select_account"`; if
the result lacks an access token raise `RuntimeError` with the provider's
description, else save the cache and return the token. -/
def interactiveFlow (disk : Option String) (p : Provider) (evs : List AuthEvent) :
    Except String String × List AuthEvent × Option String :=
  let evs1 := evs ++ [AuthEvent.interactiveCall SCOPES "select_account"]
  match p.interactiveResult.access_token with
  | none =>
      (Except.error ("Failed to acquire token: " ++ errorOf p.interactiveResult), evs1, disk)
  | some tok =>
      let sv := saveCache p.cacheAfterInteractive disk
      (Except.ok tok, evs1 ++ sv.2, sv.1)

/-- `get_access_token` from auth.py, lines 36–71, as a function of the
on-disk blob and the provider oracle.  Returns the outcome (token or raised
error message), the event trace, and the final disk state. -/
def get_access_token (disk : Option String) (p : Provider) :
    Except String String × List AuthEvent × Option String :=
  let _cache0 := loadCache disk
  if p.accounts.isEmpty then
    interactiveFlow disk p []
  else
    let evs := [AuthEvent.silentCall SCOPES (p.accounts.headD "")]
    match p.silentResult with
    | some r =>
        match r.access_token with
        | some tok =>
            let sv := saveCache p.cacheAfterSilent disk
            (Except.ok tok, evs ++ sv.2, sv.1)
        | none => interactiveFlow disk p evs
    | none => interactiveFlow disk p evs

/-- `_get_token` from server.py, lines 31–36: the process-wide token slot.
Given the current slot and the token the authority would produce, returns
the token handed to the caller, the new slot, and whether
`auth.get_access_token` was invoked.  The Python guard is `if not
_access_token:`, i.e. truthiness. -/
def _get_token (slot : Option String) (acquired : String) :
    String × Option String × Bool :=
  if pyFalsy slot then (acquired, some acquired, true)
  else (slot.getD "", slot, false)

/-- Two successive `_get_token` calls in one fresh process: the first
acquisition yields `acq1`, a hypothetical second acquisition would yield
`acq2`.  Returns (first returned token, second returned token, whether the
second call invoked acquisition). -/
def twoCalls (acq1 acq2 : String) : String × String × Bool :=
  let r1 := _get_token none acq1
  let r2 := _get_token r1.2.1 acq2
  (r1.1, r2.1, r2.2.2)

/-- Outcome of the module-level startup code of server.py, lines 17–23. -/
inductive BootResult where
  | exited (code : Nat)
  | serving (clientId tenantId : String)
  deriving Repr, DecidableEq

/-- server.py lines 17–23: read both environment variables; if either is
falsy, print an error and `sys.exit(1)` before any tool is registered. -/
def serverBoot (clientId tenantId : Option String) : BootResult :=
  if pyFalsy clientId || pyFalsy tenantId then BootResult.exited 1
  else BootResult.serving (clientId.getD "") (tenantId.getD "")

/-- The `httpx.HTTPStatusError` branch of `_handle_error` (server.py lines
45–55), as a function of the response status and body text. -/
def handleHTTPStatusError (status : Nat) (bodyText : String) : String :=
  if status = 401 then
    "Error: Authentication expired. Please restart the MCP server to re-authenticate."
  else if status = 403 then
    "Error: Permission denied. Check the app's API permissions in Azure AD."
  else if status = 404 then
    "Error: Resource not found. Please verify the ID."
  else if status = 429 then
    "Error: Rate limited by Microsoft. Please wait a moment and retry."
  else
    "Error: Microsoft Graph API returned status " ++ toString status ++ ": " ++ bodyText.take 200

/-- JSON values as returned by `response.json()`. -/
inductive GraphJson where
  | str (s : String)
  | num (n : Int)
  | bool (b : Bool)
  | null
  | arr (xs : List GraphJson)
  | obj (fields : List (String × GraphJson))

/-- An `httpx.Response`: its status code, raw body content, and what
`response.json()` would parse the body to. -/
structure HttpResponse where
  status_code : Nat
  content : String
  parsed : GraphJson

/-- The fixed dict `{"status": "success"}` from graph_client.py, line 37. -/
def successJson : GraphJson :=
  GraphJson.obj [("status", GraphJson.str "success")]

/-- The response handling of `graph_request` (graph_client.py lines 34–38):
httpx's `raise_for_status` raises `HTTPStatusError` for every non-2xx
status (informational, redirect, client error and server error responses
alike); then statuses 202/204 or an empty body yield the fixed success
dict, everything else the parsed JSON body. -/
def graph_request_result (r : HttpResponse) : Except Nat GraphJson :=
  if r.status_code < 200 ∨ 300 ≤ r.status_code then Except.error r.status_code
  else if r.status_code = 202 ∨ r.status_code = 204 ∨ r.content.length = 0 then
    Except.ok successJson
  else Except.ok r.parsed

/-- First observable step of `ms365_list_emails` after token acquisition:
either an early-return validation error string, or the Graph request it
proceeds to issue. -/
inductive ListEmailsStep where
  | earlyError (msg : String)
  | request (folder : String) (top skip : Int) (filterQ : Option String)
  deriving Repr, DecidableEq

/-- server.py lines 68–96: `ms365_list_emails` first runs `_get_token()`
(line 85), then validates `top` and `skip`, then issues the Graph request
with `filter_q = "isRead eq false"` iff `unread_only`.  Returns the step
taken, the token slot after the call, and whether acquisition ran. -/
def ms365_list_emails_model (slot : Option String) (acquired : String)
    (folder : String) (top skip : Int) (unread_only : Bool) :
    ListEmailsStep × Option String × Bool :=
  let r := _get_token slot acquired
  let step :=
    if top < 1 ∨ top > 50 then
      ListEmailsStep.earlyError "Error: 'top' must be between 1 and 50."
    else if skip < 0 then
      ListEmailsStep.earlyError "Error: 'skip' must be >= 0."
    else
      ListEmailsStep.request folder top skip
        (if unread_only then some "isRead eq false" else none)
  (step, r.2.1, r.2.2)


/-- Claim C1 fails as stated: the Python guard `if not _access_token:` uses
truthiness, so a process that has already obtained the empty-string token
re-invokes acquisition on the second call and may return a different
token. -/
theorem c1_counterexample :
    (twoCalls "" "tok2").2.2 = true ∧ (twoCalls "" "tok2").2.1 ≠ (twoCalls "" "tok2").1 := by
  decide

/-- Claim C1 (amended): for any process in which a non-empty token has
already been obtained, a second call to `_get_token` returns the identical
token string and does not invoke `auth.get_access_token` again. -/
theorem c1_tokenholder_idempotent (acq1 acq2 : String) (h : acq1 ≠ "") :
    (twoCalls acq1 acq2).2.1 = (twoCalls acq1 acq2).1 ∧
      (twoCalls acq1 acq2).2.2 = false := by
  simp [twoCalls, _get_token, pyFalsy, h]

/-- Witness for C1 at the concrete first-acquired token "tok123". -/
theorem c1_tokenholder_idempotent_witness :
    (twoCalls "tok123" "other").2.1 = (twoCalls "tok123" "other").1 ∧
      (twoCalls "tok123" "other").2.2 = false :=
  c1_tokenholder_idempotent "tok123" "other" (by decide)

/-- Claim C6: `_save_cache` writes nothing when the cache handle reports no
state change (the disk blob and the event list stay unchanged), and any
deviation from that no-op implies the handle reported a change. -/
theorem c6_noop_persistence (c : Cache) (disk : Option String) :
    (c.has_state_changed = false → saveCache c disk = (disk, [])) ∧
    (saveCache c disk ≠ (disk, []) → c.has_state_changed = true) := by
  refine ⟨fun h => ?_, fun h => ?_⟩
  · simp [saveCache, h]
  · cases hc : c.has_state_changed with
    | true => rfl
    | false => exact absurd (by simp [saveCache, hc]) h

/-- Witness for C6: an unchanged cache leaves the concrete disk blob alone. -/
theorem c6_noop_persistence_witness :
    saveCache { serialized := "blob", has_state_changed := false } (some "old") =
      (some "old", []) :=
  (c6_noop_persistence { serialized := "blob", has_state_changed := false } (some "old")).1 rfl

/-- Claim C7: if either `MS_CLIENT_ID` or `MS_TENANT_ID` is absent from the
environment, the server exits with status 1 (non-zero) at startup and never
reaches the serving state. -/
theorem c7_configuration_error (cid tid : Option String)
    (h : cid = none ∨ tid = none) :
    serverBoot cid tid = BootResult.exited 1 ∧
    (∀ c t, serverBoot cid tid ≠ BootResult.serving c t) ∧ (1 : Nat) ≠ 0 := by
  have hb : serverBoot cid tid = BootResult.exited 1 := by
    rcases h with h | h <;> subst h <;> simp [serverBoot, pyFalsy]
  exact ⟨hb, fun c t => by simp [hb], by decide⟩

/-- Witness for C7: a missing client id with a present tenant id exits 1. -/
theorem c7_configuration_error_witness :
    serverBoot none (some "contoso") = BootResult.exited 1 :=
  (c7_configuration_error none (some "contoso") (Or.inl rfl)).1

/-- Claim C8: `_handle_error` maps 401/403/404/429 to four pairwise distinct
fixed strings, the 401 message tells the user to restart the server, and
every other status gets the generic message embedding the status code. -/
theorem c8_upstream_error_mapping (b : String) :
    handleHTTPStatusError 401 b =
      "Error: Authentication expired. Please restart the MCP server to re-authenticate." ∧
    handleHTTPStatusError 403 b =
      "Error: Permission denied. Check the app's API permissions in Azure AD." ∧
    handleHTTPStatusError 404 b = "Error: Resource not found. Please verify the ID." ∧
    handleHTTPStatusError 429 b =
      "Error: Rate limited by Microsoft. Please wait a moment and retry." ∧
    List.Pairwise (fun x y => x ≠ y)
      [handleHTTPStatusError 401 b, handleHTTPStatusError 403 b,
       handleHTTPStatusError 404 b, handleHTTPStatusError 429 b] ∧
    (∃ pre post, handleHTTPStatusError 401 b = pre ++ ("restart" ++ post)) ∧
    (∀ s, s ≠ 401 → s ≠ 403 → s ≠ 404 → s ≠ 429 →
      handleHTTPStatusError s b =
        "Error: Microsoft Graph API returned status " ++ toString s ++ ": " ++ b.take 200) := by
  have e1 : handleHTTPStatusError 401 b =
      "Error: Authentication expired. Please restart the MCP server to re-authenticate." := by
    simp [handleHTTPStatusError]
  have e2 : handleHTTPStatusError 403 b =
      "Error: Permission denied. Check the app's API permissions in Azure AD." := by
    simp [handleHTTPStatusError]
  have e3 : handleHTTPStatusError 404 b =
      "Error: Resource not found. Please verify the ID." := by
    simp [handleHTTPStatusError]
  have e4 : handleHTTPStatusError 429 b =
      "Error: Rate limited by Microsoft. Please wait a moment and retry." := by
    simp [handleHTTPStatusError]
  refine ⟨e1, e2, e3, e4, ?_, ?_, ?_⟩
  · rw [e1, e2, e3, e4]; decide
  · exact ⟨"Error: Authentication expired. Please ",
      " the MCP server to re-authenticate.", by rw [e1]; decide⟩
  · intro s h1 h2 h3 h4
    simp only [handleHTTPStatusError, if_neg h1, if_neg h2, if_neg h3, if_neg h4]

/-- Witness for C8: status 500 yields the generic message with the code. -/
theorem c8_upstream_error_mapping_witness :
    handleHTTPStatusError 500 "body" =
      "Error: Microsoft Graph API returned status " ++ toString 500 ++ ": " ++
        "body".take 200 :=
  (c8_upstream_error_mapping "body").2.2.2.2.2.2 500
    (by decide) (by decide) (by decide) (by decide)

/-- Claim C9: for a successful response (2xx, the only statuses that pass
`raise_for_status` without raising), status 202 or 204 or an empty body
yields the fixed `{"status": "success"}` dict, and every other successful
response returns the parsed JSON body. -/
theorem c9_empty_body_normalization (r : HttpResponse)
    (h2 : 200 ≤ r.status_code) (hok : r.status_code < 300) :
    ((r.status_code = 202 ∨ r.status_code = 204 ∨ r.content.length = 0) →
      graph_request_result r = Except.ok successJson) ∧
    (r.status_code ≠ 202 → r.status_code ≠ 204 → r.content.length ≠ 0 →
      graph_request_result r = Except.ok r.parsed) := by
  have hnot : ¬ (r.status_code < 200 ∨ 300 ≤ r.status_code) := by omega
  refine ⟨fun h => ?_, fun h1 h2 h3 => ?_⟩
  · simp [graph_request_result, hnot, h]
  · have hne : ¬ (r.status_code = 202 ∨ r.status_code = 204 ∨ r.content.length = 0) := by
      push_neg
      exact ⟨h1, h2, h3⟩
    simp [graph_request_result, hnot, hne]

/-- Witness for C9: a 204 response with empty body normalizes to the
success dict. -/
theorem c9_empty_body_normalization_witness :
    graph_request_result { status_code := 204, content := "", parsed := GraphJson.null } =
      Except.ok successJson :=
  (c9_empty_body_normalization
    { status_code := 204, content := "", parsed := GraphJson.null }
    (by decide) (by decide)).1
    (Or.inr (Or.inl rfl))

/-- Claim C10: with `top` out of its 1..50 range, `ms365_list_emails`
returns the fixed validation error string and never issues a Graph request,
yet on a cold process (empty token slot) token acquisition still runs
before validation. -/
theorem c10_validation_after_acquisition (slot : Option String) (acquired folder : String)
    (top skip : Int) (u : Bool) (h : top < 1 ∨ top > 50) :
    (ms365_list_emails_model slot acquired folder top skip u).1 =
      ListEmailsStep.earlyError "Error: 'top' must be between 1 and 50." ∧
    (∀ f t s q, (ms365_list_emails_model slot acquired folder top skip u).1 ≠
      ListEmailsStep.request f t s q) ∧
    (pyFalsy slot = true → (ms365_list_emails_model slot acquired folder top skip u).2.2 = true) := by
  have hstep : (ms365_list_emails_model slot acquired folder top skip u).1 =
      ListEmailsStep.earlyError "Error: 'top' must be between 1 and 50." := by
    simp [ms365_list_emails_model, h]
  refine ⟨hstep, fun f t s q => by simp [hstep], fun hs => ?_⟩
  simp [ms365_list_emails_model, _get_token, hs]

/-- Witness for C10: `top = 0` on a cold slot returns the validation error
while acquisition did run. -/
theorem c10_validation_after_acquisition_witness :
    (ms365_list_emails_model none "tok" "inbox" 0 0 false).1 =
      ListEmailsStep.earlyError "Error: 'top' must be between 1 and 50." ∧
    (ms365_list_emails_model none "tok" "inbox" 0 0 false).2.2 = true := by
  have h := c10_validation_after_acquisition none "tok" "inbox" 0 0 false (Or.inl (by decide))
  exact ⟨h.1, h.2.2 rfl⟩

/-- Any event of the interactive tail is either carried over from `evs`, the
interactive call itself, or a cache-file write. -/
theorem mem_interactiveFlow (disk : Option String) (p : Provider)
    (evs : List AuthEvent) (e : AuthEvent)
    (he : e ∈ (interactiveFlow disk p evs).2.1) :
    e ∈ evs ∨ e = AuthEvent.interactiveCall SCOPES "select_account" ∨
      ∃ b, e = AuthEvent.fileWrite b := by
  cases hint : p.interactiveResult.access_token with
  | none =>
    simp only [interactiveFlow, hint] at he
    rcases List.mem_append.mp he with h | h
    · exact Or.inl h
    · exact Or.inr (Or.inl (List.mem_singleton.mp h))
  | some t =>
    cases hsc : p.cacheAfterInteractive.has_state_changed with
    | false =>
      simp only [interactiveFlow, hint, saveCache, hsc] at he
      simp only [Bool.false_eq_true, if_false, List.append_nil] at he
      rcases List.mem_append.mp he with h | h
      · exact Or.inl h
      · exact Or.inr (Or.inl (List.mem_singleton.mp h))
    | true =>
      simp only [interactiveFlow, hint, saveCache, hsc, if_true] at he
      rcases List.mem_append.mp he with h | h
      · rcases List.mem_append.mp h with h2 | h2
        · exact Or.inl h2
        · exact Or.inr (Or.inl (List.mem_singleton.mp h2))
      · exact Or.inr (Or.inr ⟨_, List.mem_singleton.mp h⟩)

/-- Any event in the trace of `get_access_token` is the silent call on the
first account, the interactive call, or a cache-file write. -/
theorem mem_get_access_token (disk : Option String) (p : Provider) (e : AuthEvent)
    (he : e ∈ (get_access_token disk p).2.1) :
    e = AuthEvent.silentCall SCOPES (p.accounts.headD "") ∨
    e = AuthEvent.interactiveCall SCOPES "select_account" ∨
      ∃ b, e = AuthEvent.fileWrite b := by
  cases hA : p.accounts.isEmpty with
  | true =>
    simp only [get_access_token, hA, if_true] at he
    rcases mem_interactiveFlow disk p [] e he with h | h
    · simp at h
    · exact Or.inr h
  | false =>
    cases hres : p.silentResult with
    | none =>
      simp only [get_access_token, hA, hres, Bool.false_eq_true, if_false] at he
      rcases mem_interactiveFlow disk p _ e he with h | h
      · exact Or.inl (List.mem_singleton.mp h)
      · exact Or.inr h
    | some r =>
      cases htok : r.access_token with
      | none =>
        simp only [get_access_token, hA, hres, htok, Bool.false_eq_true, if_false] at he
        rcases mem_interactiveFlow disk p _ e he with h | h
        · exact Or.inl (List.mem_singleton.mp h)
        · exact Or.inr h
      | some t =>
        cases hsc : p.cacheAfterSilent.has_state_changed with
        | false =>
          simp only [get_access_token, hA, hres, htok, saveCache, hsc,
            Bool.false_eq_true, if_false, List.append_nil] at he
          exact Or.inl (List.mem_singleton.mp he)
        | true =>
          simp only [get_access_token, hA, hres, htok, saveCache, hsc,
            Bool.false_eq_true, if_false, if_true] at he
          rcases List.mem_append.mp he with h | h
          · exact Or.inl (List.mem_singleton.mp h)
          · exact Or.inr (Or.inr ⟨_, List.mem_singleton.mp h⟩)

/-- Claim C2: when the cache enumerates at least one account and silent
acquisition yields a result with an access token, `get_access_token`
returns that token, the disk is rewritten exactly under the
save-only-if-changed semantics, and the interactive path is never
entered. -/
theorem c2_silent_path_success (disk : Option String) (p : Provider)
    (r : TokenResult) (tok : String)
    (hacc : p.accounts ≠ [])
    (hres : p.silentResult = some r)
    (htok : r.access_token = some tok) :
    (get_access_token disk p).1 = Except.ok tok ∧
    (get_access_token disk p).2.2 =
      (if p.cacheAfterSilent.has_state_changed then some p.cacheAfterSilent.serialized
       else disk) ∧
    (∀ s pr, AuthEvent.interactiveCall s pr ∉ (get_access_token disk p).2.1) := by
  have hA : p.accounts.isEmpty = false := by
    cases hl : p.accounts with
    | nil => exact absurd hl hacc
    | cons a tl => simp
  refine ⟨?_, ?_, ?_⟩
  · cases hsc : p.cacheAfterSilent.has_state_changed <;>
      simp [get_access_token, hA, hres, htok, saveCache, hsc]
  · cases hsc : p.cacheAfterSilent.has_state_changed <;>
      simp [get_access_token, hA, hres, htok, saveCache, hsc]
  · intro s pr
    cases hsc : p.cacheAfterSilent.has_state_changed <;>
      simp [get_access_token, hA, hres, htok, saveCache, hsc]

/-- Witness for C2: a one-account cache whose silent call returns a token;
the flow returns it without any interactive call. -/
theorem c2_silent_path_success_witness :
    (get_access_token (some "blob")
      ⟨["acct"], some ⟨some "tok", none, none⟩, ⟨"blob2", true⟩, ⟨none, none, none⟩,
        ⟨"", false⟩⟩).1 = Except.ok "tok" :=
  (c2_silent_path_success (some "blob") _ _ "tok" (by decide) rfl rfl).1

/-- Claim C3: whenever the flow reaches the interactive path and the
interactive result lacks an access token, `get_access_token` fails with a
message containing the provider's `error_description`, falling back to the
`error` code and then to "Unknown error". -/
theorem c3_missing_token_failure (disk : Option String) (p : Provider)
    (hs : silentSucceeds p = false)
    (hno : p.interactiveResult.access_token = none) :
    (get_access_token disk p).1 =
      Except.error ("Failed to acquire token: " ++ errorOf p.interactiveResult) ∧
    (∀ d, p.interactiveResult.error_description = some d →
      ∃ pre post, "Failed to acquire token: " ++ errorOf p.interactiveResult =
        pre ++ (d ++ post)) ∧
    (∀ e, p.interactiveResult.error_description = none →
      p.interactiveResult.error = some e →
      ∃ pre post, "Failed to acquire token: " ++ errorOf p.interactiveResult =
        pre ++ (e ++ post)) ∧
    (p.interactiveResult.error_description = none → p.interactiveResult.error = none →
      errorOf p.interactiveResult = "Unknown error") := by
  refine ⟨?_, ?_, ?_, ?_⟩
  · cases hA : p.accounts.isEmpty with
    | true => simp [get_access_token, hA, interactiveFlow, hno]
    | false =>
      cases hres : p.silentResult with
      | none => simp [get_access_token, hA, hres, interactiveFlow, hno]
      | some r =>
        cases htok : r.access_token with
        | none => simp [get_access_token, hA, hres, htok, interactiveFlow, hno]
        | some t =>
          exfalso
          simp [silentSucceeds, hA, hres, htok] at hs
  · intro d hd
    exact ⟨"Failed to acquire token: ", "", by simp [errorOf, hd]⟩
  · intro e h1 h2
    exact ⟨"Failed to acquire token: ", "", by simp [errorOf, h1, h2]⟩
  · intro h1 h2
    simp [errorOf, h1, h2]

/-- Witness for C3: an empty cache and an interactive result carrying only
`error_description = "user_cancelled"` produce a failure whose message
contains "user_cancelled". -/
theorem c3_missing_token_failure_witness :
    (get_access_token none
      ⟨[], none, ⟨"", false⟩, ⟨none, some "user_cancelled", none⟩, ⟨"", false⟩⟩).1 =
      Except.error ("Failed to acquire token: " ++
        errorOf ⟨none, some "user_cancelled", none⟩) ∧
    ∃ pre post,
      "Failed to acquire token: " ++ errorOf ⟨none, some "user_cancelled", none⟩ =
        pre ++ ("user_cancelled" ++ post) := by
  have h := c3_missing_token_failure none
    ⟨[], none, ⟨"", false⟩, ⟨none, some "user_cancelled", none⟩, ⟨"", false⟩⟩ rfl rfl
  exact ⟨h.1, h.2.1 "user_cancelled" rfl⟩

/-- Claim C4: with no cache file on disk, `_load_cache` returns an
empty-but-valid cache handle (no error), and with the resulting empty
account list the flow performs no silent attempt and goes straight to the
interactive call. -/
theorem c4_cold_start (p : Provider) (hacc : p.accounts = []) :
    loadCache none = { serialized := "", has_state_changed := false } ∧
    (∀ s a, AuthEvent.silentCall s a ∉ (get_access_token none p).2.1) ∧
    ((get_access_token none p).2.1).head? =
      some (AuthEvent.interactiveCall SCOPES "select_account") := by
  have hA : p.accounts.isEmpty = true := by simp [hacc]
  refine ⟨rfl, fun s a => ?_, ?_⟩
  · cases htok : p.interactiveResult.access_token <;>
      cases hsc : p.cacheAfterInteractive.has_state_changed <;>
        simp [get_access_token, hA, interactiveFlow, htok, saveCache, hsc]
  · cases htok : p.interactiveResult.access_token <;>
      cases hsc : p.cacheAfterInteractive.has_state_changed <;>
        simp [get_access_token, hA, interactiveFlow, htok, saveCache, hsc]

/-- Witness for C4: a cold start on an empty cache begins with the
interactive call. -/
theorem c4_cold_start_witness :
    ((get_access_token none
      ⟨[], none, ⟨"", false⟩, ⟨some "tok123", none, none⟩, ⟨"blob", true⟩⟩).2.1).head? =
      some (AuthEvent.interactiveCall SCOPES "select_account") :=
  (c4_cold_start ⟨[], none, ⟨"", false⟩, ⟨some "tok123", none, none⟩, ⟨"blob", true⟩⟩
    rfl).2.2

/-- Claim C5: every silent and every interactive acquisition call recorded
in the trace of `get_access_token` carries exactly the scope list
["Mail.Read", "Mail.ReadWrite", "Mail.Send", "Calendars.Read",
"User.Read"]. -/
theorem c5_scope_consistency (disk : Option String) (p : Provider) :
    ∀ e ∈ (get_access_token disk p).2.1,
      (∀ s a, e = AuthEvent.silentCall s a →
        s = ["Mail.Read", "Mail.ReadWrite", "Mail.Send", "Calendars.Read", "User.Read"]) ∧
      (∀ s pr, e = AuthEvent.interactiveCall s pr →
        s = ["Mail.Read", "Mail.ReadWrite", "Mail.Send", "Calendars.Read", "User.Read"]) := by
  intro e he
  have h := mem_get_access_token disk p e he
  constructor
  · intro s a heq
    subst heq
    rcases h with h | h | ⟨b, h⟩
    · simp only [AuthEvent.silentCall.injEq] at h
      exact h.1.trans rfl
    · simp at h
    · simp at h
  · intro s pr heq
    subst heq
    rcases h with h | h | ⟨b, h⟩
    · simp at h
    · simp only [AuthEvent.interactiveCall.injEq] at h
      exact h.1.trans rfl
    · simp at h

/-- Witness for C5: the interactive call in a concrete cold-start trace
carries exactly the five scopes. -/
theorem c5_scope_consistency_witness :
    AuthEvent.interactiveCall SCOPES "select_account" ∈
      (get_access_token none
        ⟨[], none, ⟨"", false⟩, ⟨none, none, none⟩, ⟨"", false⟩⟩).2.1 ∧
    SCOPES = ["Mail.Read", "Mail.ReadWrite", "Mail.Send", "Calendars.Read", "User.Read"] := by
  have hmem : AuthEvent.interactiveCall SCOPES "select_account" ∈
      (get_access_token none
        ⟨[], none, ⟨"", false⟩, ⟨none, none, none⟩, ⟨"", false⟩⟩).2.1 := by
    decide
  exact ⟨hmem, (c5_scope_consistency none _ _ hmem).2 SCOPES "select_account" rfl⟩

end MS365
